import Mathlib

/-!
Verification of the texture module of `golem` (src/src/texture.rs).

The module wraps an OpenGL-style graphics API (the `glow` crate): a `Texture`
owns a GPU texture object id together with its recorded `width` and `height`,
and its operations validate their arguments with `assert!` before mutating
either the CPU-side fields or the global GL binding state.

The embedding below models:
  - the numeric constants of `glow` that the source mentions (standard GL
    enum values);
  - `u32` arithmetic where wrap-around is reachable (`set_subimage`), as
    arithmetic modulo 2^32 (release-build semantics; in debug builds the
    same inputs abort with an overflow panic, which is equally a failure);
  - the global GL state touched by the source (`active_texture`,
    `bind_texture` on target TEXTURE_2D, `tex_parameter_i32`,
    `create_texture`) as a record with association lists, so that every
    state is decidably comparable;
  - each `assert!(cond, msg)` as an early `Except.error msg` return, and a
    panic-free run as `Except.ok ()`; operations return the control
    outcome together with the texture fields and GL state at exit, so that
    a failed assertion visibly leaves both untouched.

Texel storage itself (`tex_image_2d`, `tex_sub_image_2d_u8_slice`,
`generate_mipmap`) is not represented: no claim concerns pixel contents,
only the validation, the recorded dimensions and the binding state.
-/

namespace Golem

/-- Modulus of `u32` arithmetic. -/
def U32_MOD : Nat := 4294967296

/-- `u32` wrapping addition (release-build semantics). -/
def add32 (a b : Nat) : Nat := (a + b) % U32_MOD

/-- `u32` wrapping subtraction (release-build semantics). -/
def sub32 (a b : Nat) : Nat := (a % U32_MOD + (U32_MOD - b % U32_MOD)) % U32_MOD

/-- `u32` wrapping multiplication (release-build semantics). -/
def mul32 (a b : Nat) : Nat := (a * b) % U32_MOD

namespace glow

/-- GL enum `GL_TEXTURE0` (0x84C0). -/
def TEXTURE0 : Nat := 33984

/-- GL enum `GL_TEXTURE_2D` (0x0DE1). -/
def TEXTURE_2D : Nat := 3553

/-- GL enum `GL_MAX_TEXTURE_SIZE` (0x0D33).  The source compares texture
dimensions against this constant directly (it never queries the driver), so
the effective maximum dimension in the code is the enum value 3379. -/
def MAX_TEXTURE_SIZE : Nat := 3379

/-- GL enum `GL_TEXTURE_MIN_FILTER` (0x2801). -/
def TEXTURE_MIN_FILTER : Nat := 10241

/-- GL enum `GL_TEXTURE_MAG_FILTER` (0x2800). -/
def TEXTURE_MAG_FILTER : Nat := 10240

/-- GL enum `GL_TEXTURE_WRAP_S` (0x2802). -/
def TEXTURE_WRAP_S : Nat := 10242

/-- GL enum `GL_TEXTURE_WRAP_T` (0x2803). -/
def TEXTURE_WRAP_T : Nat := 10243

/-- GL enum `GL_LINEAR` (0x2601). -/
def LINEAR : Nat := 9729

/-- GL enum `GL_NEAREST` (0x2600). -/
def NEAREST : Nat := 9728

/-- GL enum `GL_REPEAT` (0x2901). -/
def REPEAT : Nat := 10497

/-- GL enum `GL_CLAMP_TO_EDGE` (0x812F). -/
def CLAMP_TO_EDGE : Nat := 33071

/-- GL enum `GL_MIRRORED_REPEAT` (0x8370). -/
def MIRRORED_REPEAT : Nat := 33648

end glow

/-- Modelled from the spec: the `ColorFormat` enum lives in a file of this
repository that is not under src/; the spec fixes it as RGB (3 bytes per
pixel) and RGBA (4 bytes per pixel). -/
inductive ColorFormat
  | RGB
  | RGBA
deriving DecidableEq

/-- Modelled from the spec: `bytes_per_pixel()` is a pure function of the
format tag, 3 for RGB and 4 for RGBA. -/
def ColorFormat.bytes_per_pixel : ColorFormat → Nat
  | ColorFormat.RGB => 3
  | ColorFormat.RGBA => 4

/-- `TextureFilter` from the source: how textures scale at non-native sizes. -/
inductive TextureFilter
  | Linear
  | Nearest
deriving DecidableEq

/-- `TextureFilter::to_gl` from the source. -/
def TextureFilter.to_gl : TextureFilter → Int
  | TextureFilter.Linear => (glow.LINEAR : Nat)
  | TextureFilter.Nearest => (glow.NEAREST : Nat)

/-- `TextureWrap` from the source: wrap behaviour outside the edge. -/
inductive TextureWrap
  | Repeat
  | ClampToEdge
  | MirroredRepeat
deriving DecidableEq

/-- `TextureWrap::to_gl` from the source. -/
def TextureWrap.to_gl : TextureWrap → Int
  | TextureWrap.Repeat => (glow.REPEAT : Nat)
  | TextureWrap.ClampToEdge => (glow.CLAMP_TO_EDGE : Nat)
  | TextureWrap.MirroredRepeat => (glow.MIRRORED_REPEAT : Nat)

/-- Association-list update: replace the value at the first occurrence of
the key, or append the pair if the key is absent. -/
def updA {κ α : Type} [DecidableEq κ] : List (κ × α) → κ → α → List (κ × α)
  | [], k, v => [(k, v)]
  | (k', v') :: rest, k, v =>
    if k' = k then (k, v) :: rest else (k', v') :: updA rest k v

/-- Association-list lookup. -/
def lookupA {κ α : Type} [DecidableEq κ] : List (κ × α) → κ → Option α
  | [], _ => none
  | (k', v') :: rest, k => if k' = k then some v' else lookupA rest k

/-- The slice of global GL state that the texture module touches:
the active texture unit, the per-unit TEXTURE_2D binding, the per-texture
integer parameters, and a fresh-id counter for `create_texture`. -/
structure GlState where
  activeUnit : Nat
  binding2D : List (Nat × Option Nat)
  texParams : List ((Nat × Nat) × Int)
  nextId : Nat
deriving DecidableEq

/-- `gl.active_texture(unit)`: select the active texture unit. -/
def GlState.active_texture (s : GlState) (unit : Nat) : GlState :=
  { s with activeUnit := unit }

/-- The texture bound to target TEXTURE_2D on the given unit
(`none` when nothing is bound, the GL initial state). -/
def GlState.bound2D (s : GlState) (unit : Nat) : Option Nat :=
  (lookupA s.binding2D unit).getD none

/-- `gl.bind_texture(TEXTURE_2D, t)`: bind `t` (or unbind, for `none`) on
the currently active unit. -/
def GlState.bind_texture (s : GlState) (t : Option Nat) : GlState :=
  { s with binding2D := updA s.binding2D s.activeUnit t }

/-- `gl.tex_parameter_i32(TEXTURE_2D, param, value)`: set a parameter of
the texture currently bound to TEXTURE_2D on the active unit; with no
bound texture the call raises a GL error and changes no texture object. -/
def GlState.tex_parameter_i32 (s : GlState) (param : Nat) (value : Int) : GlState :=
  match s.bound2D s.activeUnit with
  | none => s
  | some id => { s with texParams := updA s.texParams (id, param) value }

/-- `gl.create_texture()`: hand out a fresh texture object id.  (The
underlying call is fallible; allocation failure is an environment condition
outside the scope of the claims, so creation is modelled as succeeding.) -/
def GlState.create_texture (s : GlState) : Nat × GlState :=
  (s.nextId, { s with nextId := s.nextId + 1 })

/-- A GL context in its initial state. -/
def GlState.init : GlState :=
  { activeUnit := glow.TEXTURE0, binding2D := [], texParams := [], nextId := 1 }

/-- The CPU-side fields of `Texture`: the GL object id and the recorded
dimensions.  (The `ctx` field only carries the GL handle, which the
embedding passes explicitly as a `GlState`.) -/
structure Texture where
  id : Nat
  width : Nat
  height : Nat
deriving DecidableEq

/-- `Texture::set_texture_param` from the source: bind the texture to
TEXTURE_2D, then set the parameter.  (The source does not unbind
afterwards.) -/
def Texture.set_texture_param (t : Texture) (param : Nat) (value : Int)
    (s : GlState) : GlState :=
  (s.bind_texture (some t.id)).tex_parameter_i32 param value

/-- `Texture::set_minification` from the source. -/
def Texture.set_minification (t : Texture) (min : TextureFilter) (s : GlState) : GlState :=
  t.set_texture_param glow.TEXTURE_MIN_FILTER min.to_gl s

/-- `Texture::set_magnification` from the source. -/
def Texture.set_magnification (t : Texture) (max : TextureFilter) (s : GlState) : GlState :=
  t.set_texture_param glow.TEXTURE_MAG_FILTER max.to_gl s

/-- `Texture::set_wrap_h` from the source. -/
def Texture.set_wrap_h (t : Texture) (wrap : TextureWrap) (s : GlState) : GlState :=
  t.set_texture_param glow.TEXTURE_WRAP_S wrap.to_gl s

/-- `Texture::set_wrap_v` from the source. -/
def Texture.set_wrap_v (t : Texture) (wrap : TextureWrap) (s : GlState) : GlState :=
  t.set_texture_param glow.TEXTURE_WRAP_T wrap.to_gl s

/-- `Texture::new` from the source: create a texture object, record
width = height = 0, and apply linear minification. -/
def Texture.new (s : GlState) : Texture × GlState :=
  let r := s.create_texture
  let tex : Texture := { id := r.1, width := 0, height := 0 }
  (tex, tex.set_minification TextureFilter.Linear r.2)

/-- `Texture::set_active` from the source: switch to unit
TEXTURE0 + bind_point, bind the texture to TEXTURE_2D there, then switch
back to unit TEXTURE0.  (`bind_point` is a `NonZeroU32` in the source, so
zero is unrepresentable there; the behaviour modelled here does not depend
on that.) -/
def Texture.set_active (t : Texture) (bind_point : Nat) (s : GlState) : GlState :=
  let s1 := s.active_texture (add32 glow.TEXTURE0 bind_point)
  let s2 := s1.bind_texture (some t.id)
  s2.active_texture glow.TEXTURE0

/-- The data-length assertion of `set_image`: with `Some(data)` the buffer
must hold at least `required` bytes; with `None` nothing is required.
This returns `true` when the assertion FAILS. -/
def imageDataTooSmall (data : Option (List Nat)) (required : Nat) : Bool :=
  match data with
  | some d => decide (d.length < required)
  | none => false

/-- `Texture::set_image` from the source.  Each `assert!` becomes an early
`Except.error` carrying the assertion message (the second message repeats
"width" exactly as in the source); only after every assertion passes are
the recorded dimensions overwritten and the GL upload performed.  The
byte-count product is computed in `u32` in the source, but it is only
evaluated after both dimensions passed the `< MAX_TEXTURE_SIZE` checks, so
it never exceeds 3378 * 3378 * 4 < 2^32 and plain arithmetic is exact.
The returned triple is the control outcome, the texture fields at exit and
the GL state at exit. -/
def Texture.set_image (t : Texture) (data : Option (List Nat)) (width height : Nat)
    (color : ColorFormat) (s : GlState) : Except String Unit × Texture × GlState :=
  if ¬ 0 < width then
    (Except.error "The texture width was 0", t, s)
  else if ¬ 0 < height then
    (Except.error "The texture width was 0", t, s)
  else if ¬ width < glow.MAX_TEXTURE_SIZE then
    (Except.error "The texture width was bigger than the maximum size", t, s)
  else if ¬ height < glow.MAX_TEXTURE_SIZE then
    (Except.error "The texture height was bigger than the maximum size", t, s)
  else if ¬ width &&& (width - 1) = 0 then
    (Except.error "The texture width was not a power of 2", t, s)
  else if ¬ height &&& (height - 1) = 0 then
    (Except.error "The texture height was not a power of 2", t, s)
  else if imageDataTooSmall data (width * height * color.bytes_per_pixel) then
    (Except.error "The texture data was not big enough for the width, height, and format supplied",
      t, s)
  else
    let tex : Texture := { t with width := width, height := height }
    let s1 := s.bind_texture (some t.id)
    let s2 := s1.bind_texture none
    (Except.ok (), tex, s2)

/-- `Texture::set_subimage` from the source.  The receiver is `&self`, so
the texture fields cannot change; the texture is returned unchanged to
make that fact a statement about the model.  The required data length is
computed, exactly as in the source, as
`(width - x) * (height - y) * bytes_per_pixel` in `u32`; for `x > width`
the subtraction wraps around (release builds; debug builds abort on the
subtraction, which is likewise a failed call). -/
def Texture.set_subimage (t : Texture) (data : List Nat) (x y width height : Nat)
    (color : ColorFormat) (s : GlState) : Except String Unit × Texture × GlState :=
  if ¬ add32 x width ≤ t.width then
    (Except.error "The region over-ran the width of the texture", t, s)
  else if ¬ add32 y height ≤ t.height then
    (Except.error "The region over-ran the height of the texture", t, s)
  else
    let required_data_len := mul32 (mul32 (sub32 width x) (sub32 height y)) color.bytes_per_pixel
    if data.length < required_data_len then
      (Except.error "assertion failed: data.len() >= required_data_len as usize", t, s)
    else
      let s1 := s.bind_texture (some t.id)
      let s2 := s1.bind_texture none
      (Except.ok (), t, s2)

/-- A run of an operation that ended in a failed `assert!` (a Rust panic,
the fail-fast contract-violation channel). -/
def isContractError : Except String Unit → Bool
  | Except.error _ => true
  | Except.ok _ => false

/-- `n` is a power of two. -/
def IsPow2 (n : Nat) : Prop := ∃ k, n = 2 ^ k

/-- The texture invariant of the spec: width and height are either both
zero or both positive powers of two below the maximum dimension the code
enforces. -/
def TexInv (t : Texture) : Prop :=
  (t.width = 0 ∧ t.height = 0) ∨
  (0 < t.width ∧ 0 < t.height ∧ IsPow2 t.width ∧ IsPow2 t.height ∧
   t.width < glow.MAX_TEXTURE_SIZE ∧ t.height < glow.MAX_TEXTURE_SIZE)

/-! ## Helper lemmas -/

/-- The classic bit trick: for positive `n`, `n &&& (n - 1) = 0` holds
exactly when `n` is a power of two. -/
theorem land_pred_eq_zero_iff (n : Nat) (hn : 0 < n) :
    n &&& (n - 1) = 0 ↔ IsPow2 n := by
  constructor
  · intro hand
    refine ⟨n.log2, ?_⟩
    by_contra hne
    have hle : 2 ^ n.log2 ≤ n := Nat.log2_self_le (by omega)
    have hlt : n < 2 ^ (n.log2 + 1) := Nat.lt_log2_self
    have hgt : 2 ^ n.log2 < n := lt_of_le_of_ne hle (fun e => hne e.symm)
    rw [Nat.pow_succ] at hlt
    have tb1 : n.testBit n.log2 = true := by
      rw [Nat.testBit_to_div_mod]
      have hdiv : n / 2 ^ n.log2 = 1 :=
        Nat.div_eq_of_lt_le (by omega) (by omega)
      simp [hdiv]
    have tb2 : (n - 1).testBit n.log2 = true := by
      rw [Nat.testBit_to_div_mod]
      have hdiv : (n - 1) / 2 ^ n.log2 = 1 :=
        Nat.div_eq_of_lt_le (by omega) (by omega)
      simp [hdiv]
    have hbit := Nat.testBit_land n (n - 1) n.log2
    rw [hand, Nat.zero_testBit, tb1, tb2] at hbit
    simp at hbit
  · rintro ⟨k, rfl⟩
    apply Nat.eq_of_testBit_eq
    intro i
    rw [Nat.testBit_land, Nat.zero_testBit, Nat.testBit_two_pow_sub_one]
    rcases eq_or_ne k i with rfl | hki
    · simp
    · rw [Nat.testBit_two_pow_of_ne hki]
      simp

/-- Success condition of `set_image`: the run reaches the final branch
exactly when every assertion passes. -/
theorem set_image_ok_iff (t : Texture) (d : Option (List Nat)) (w h : Nat)
    (c : ColorFormat) (s : GlState) :
    (Texture.set_image t d w h c s).1 = Except.ok () ↔
      (0 < w ∧ 0 < h ∧ w < glow.MAX_TEXTURE_SIZE ∧ h < glow.MAX_TEXTURE_SIZE ∧
       w &&& (w - 1) = 0 ∧ h &&& (h - 1) = 0 ∧
       imageDataTooSmall d (w * h * c.bytes_per_pixel) = false) := by
  unfold Texture.set_image
  split_ifs with h1 h2 h3 h4 h5 h6 h7 <;> simp_all

/-- On success, `set_image` records exactly the requested dimensions. -/
theorem set_image_ok_texture (t : Texture) (d : Option (List Nat)) (w h : Nat)
    (c : ColorFormat) (s : GlState)
    (hok : (Texture.set_image t d w h c s).1 = Except.ok ()) :
    (Texture.set_image t d w h c s).2.1 = { id := t.id, width := w, height := h } := by
  unfold Texture.set_image at hok ⊢
  split_ifs at hok ⊢ <;> simp_all

/-- On success, the GL state of `set_image` at exit is the input state
after a bind of the texture followed by an unbind. -/
theorem set_image_ok_state (t : Texture) (d : Option (List Nat)) (w h : Nat)
    (c : ColorFormat) (s : GlState)
    (hok : (Texture.set_image t d w h c s).1 = Except.ok ()) :
    (Texture.set_image t d w h c s).2.2 =
      (s.bind_texture (some t.id)).bind_texture none := by
  unfold Texture.set_image at hok ⊢
  split_ifs at hok ⊢ <;> simp_all

/-- On a failed assertion, `set_image` leaves the texture fields and the
GL state untouched. -/
theorem set_image_err_unchanged (t : Texture) (d : Option (List Nat)) (w h : Nat)
    (c : ColorFormat) (s : GlState)
    (herr : isContractError (Texture.set_image t d w h c s).1 = true) :
    (Texture.set_image t d w h c s).2.1 = t ∧
    (Texture.set_image t d w h c s).2.2 = s := by
  unfold Texture.set_image at herr ⊢
  split_ifs at herr ⊢ <;> simp_all [isContractError]

/-- A run is a contract error exactly when it is not a success. -/
theorem isContractError_iff (r : Except String Unit) :
    isContractError r = true ↔ ¬ r = Except.ok () := by
  cases r with
  | error e => simp [isContractError]
  | ok u => cases u; simp [isContractError]

/-- Success condition of `set_subimage`. -/
theorem set_subimage_ok_iff (t : Texture) (d : List Nat) (x y w h : Nat)
    (c : ColorFormat) (s : GlState) :
    (Texture.set_subimage t d x y w h c s).1 = Except.ok () ↔
      (add32 x w ≤ t.width ∧ add32 y h ≤ t.height ∧
       mul32 (mul32 (sub32 w x) (sub32 h y)) c.bytes_per_pixel ≤ d.length) := by
  unfold Texture.set_subimage
  dsimp only
  split_ifs with h1 h2 h3 <;> simp_all

/-- `set_subimage` always returns the texture fields it was given: the
receiver is `&self` in the source, so no mutation is possible. -/
theorem set_subimage_texture (t : Texture) (d : List Nat) (x y w h : Nat)
    (c : ColorFormat) (s : GlState) :
    (Texture.set_subimage t d x y w h c s).2.1 = t := by
  unfold Texture.set_subimage
  dsimp only
  split_ifs <;> rfl

/-- On success, the GL state of `set_subimage` at exit is the input state
after a bind of the texture followed by an unbind. -/
theorem set_subimage_ok_state (t : Texture) (d : List Nat) (x y w h : Nat)
    (c : ColorFormat) (s : GlState)
    (hok : (Texture.set_subimage t d x y w h c s).1 = Except.ok ()) :
    (Texture.set_subimage t d x y w h c s).2.2 =
      (s.bind_texture (some t.id)).bind_texture none := by
  unfold Texture.set_subimage at hok ⊢
  dsimp only at hok ⊢
  split_ifs at hok ⊢ <;> simp_all

/-- Looking up the key just written returns the written value. -/
theorem lookupA_updA_self {κ α : Type} [DecidableEq κ]
    (l : List (κ × α)) (k : κ) (v : α) :
    lookupA (updA l k v) k = some v := by
  induction l with
  | nil => simp [updA, lookupA]
  | cons p rest ih =>
    by_cases hk : p.1 = k
    · simp [updA, hk, lookupA]
    · simp [updA, hk, lookupA, ih]

/-- Writing the same key-value pair twice is the same as writing it once. -/
theorem updA_updA_self {κ α : Type} [DecidableEq κ]
    (l : List (κ × α)) (k : κ) (v : α) :
    updA (updA l k v) k v = updA l k v := by
  induction l with
  | nil => simp [updA]
  | cons p rest ih =>
    by_cases hk : p.1 = k
    · simp [updA, hk]
    · simp [updA, hk, ih]

/-- Closed form of `set_texture_param`: the texture gets bound on the
active unit and its parameter is written. -/
theorem set_texture_param_eq (t : Texture) (p : Nat) (v : Int) (s : GlState) :
    t.set_texture_param p v s =
      { s with binding2D := updA s.binding2D s.activeUnit (some t.id),
               texParams := updA s.texParams (t.id, p) v } := by
  unfold Texture.set_texture_param GlState.bind_texture GlState.tex_parameter_i32
    GlState.bound2D
  simp [lookupA_updA_self]

/-- `set_texture_param` is idempotent and writes the parameter value. -/
theorem set_texture_param_idem (t : Texture) (p : Nat) (v : Int) (s : GlState) :
    t.set_texture_param p v (t.set_texture_param p v s) = t.set_texture_param p v s ∧
    lookupA (t.set_texture_param p v s).texParams (t.id, p) = some v := by
  constructor
  · simp only [set_texture_param_eq]
    simp [updA_updA_self]
  · rw [set_texture_param_eq]
    exact lookupA_updA_self _ _ _

/-- After binding twice from a state, the active unit is unchanged and its
TEXTURE_2D binding is the second value bound. -/
theorem bound2D_bind_bind (s : GlState) (o1 o2 : Option Nat) :
    ((s.bind_texture o1).bind_texture o2).bound2D s.activeUnit = o2 ∧
    ((s.bind_texture o1).bind_texture o2).activeUnit = s.activeUnit := by
  unfold GlState.bind_texture GlState.bound2D
  dsimp only
  rw [lookupA_updA_self]
  exact ⟨rfl, rfl⟩

/-! ## Claim theorems -/

/-- C1: for every texture, after a call to `set_image(data, w, h, fmt)`
that succeeds, `width()` returns `w` and `height()` returns `h`. -/
theorem C1_set_image_sets_dimensions (t : Texture) (data : Option (List Nat))
    (w h : Nat) (c : ColorFormat) (s : GlState)
    (hok : (Texture.set_image t data w h c s).1 = Except.ok ()) :
    (Texture.set_image t data w h c s).2.1.width = w ∧
    (Texture.set_image t data w h c s).2.1.height = h := by
  rw [set_image_ok_texture t data w h c s hok]
  exact ⟨rfl, rfl⟩

/-- Witness for C1: a 2×2 RGB upload succeeds and records 2×2. -/
theorem C1_set_image_sets_dimensions_witness :
    (Texture.set_image ⟨1, 0, 0⟩ none 2 2 ColorFormat.RGB GlState.init).1 = Except.ok () ∧
    (Texture.set_image ⟨1, 0, 0⟩ none 2 2 ColorFormat.RGB GlState.init).2.1.width = 2 ∧
    (Texture.set_image ⟨1, 0, 0⟩ none 2 2 ColorFormat.RGB GlState.init).2.1.height = 2 :=
  ⟨rfl, C1_set_image_sets_dimensions ⟨1, 0, 0⟩ none 2 2 ColorFormat.RGB GlState.init rfl⟩

/-- C3: for dimensions that are zero, not a power of two, or beyond the
maximum, `set_image` fails its assertions and leaves both the recorded
dimensions and the GL state untouched. -/
theorem C3_set_image_rejects_and_preserves (t : Texture) (data : Option (List Nat))
    (w h : Nat) (c : ColorFormat) (s : GlState)
    (hbad : (¬ IsPow2 w ∨ w = 0 ∨ glow.MAX_TEXTURE_SIZE < w) ∨
            (¬ IsPow2 h ∨ h = 0 ∨ glow.MAX_TEXTURE_SIZE < h)) :
    isContractError (Texture.set_image t data w h c s).1 = true ∧
    (Texture.set_image t data w h c s).2.1 = t ∧
    (Texture.set_image t data w h c s).2.2 = s := by
  have herr : isContractError (Texture.set_image t data w h c s).1 = true := by
    rw [isContractError_iff, set_image_ok_iff]
    rintro ⟨hw0, hh0, hwM, hhM, hwb, hhb, -⟩
    rcases hbad with hb | hb <;> rcases hb with hb | hb | hb
    · exact hb ((land_pred_eq_zero_iff w hw0).mp hwb)
    · omega
    · omega
    · exact hb ((land_pred_eq_zero_iff h hh0).mp hhb)
    · omega
    · omega
  exact ⟨herr, (set_image_err_unchanged t data w h c s herr).1,
    (set_image_err_unchanged t data w h c s herr).2⟩

/-- Witness for C3: width 3 is not a power of two; the call on a texture
recorded as 8×4 fails and leaves the fields and the GL state as they were. -/
theorem C3_set_image_rejects_and_preserves_witness :
    isContractError (Texture.set_image ⟨1, 8, 4⟩ none 3 2 ColorFormat.RGB GlState.init).1 = true ∧
    (Texture.set_image ⟨1, 8, 4⟩ none 3 2 ColorFormat.RGB GlState.init).2.1 = ⟨1, 8, 4⟩ ∧
    (Texture.set_image ⟨1, 8, 4⟩ none 3 2 ColorFormat.RGB GlState.init).2.2 = GlState.init :=
  C3_set_image_rejects_and_preserves ⟨1, 8, 4⟩ none 3 2 ColorFormat.RGB GlState.init
    (Or.inl (Or.inl (fun hp =>
      (by decide : ¬ ((3 : Nat) &&& (3 - 1) = 0))
        ((land_pred_eq_zero_iff 3 (by decide)).mpr hp))))

/-- C4: `set_image` accepts dimensions exactly when each is a positive
power of two strictly below the maximum texture size the code enforces,
and on positive numbers the bit test `n &&& (n - 1) == 0` decides
power-of-two-ness.  (The source compares against the constant
`glow::MAX_TEXTURE_SIZE`; it performs no driver query.) -/
theorem C4_set_image_accepts_iff_pow2 (t : Texture) (w h : Nat) (c : ColorFormat)
    (s : GlState) :
    ((Texture.set_image t none w h c s).1 = Except.ok () ↔
      (0 < w ∧ IsPow2 w ∧ w < glow.MAX_TEXTURE_SIZE ∧
       0 < h ∧ IsPow2 h ∧ h < glow.MAX_TEXTURE_SIZE)) ∧
    (∀ n : Nat, 0 < n → ((n &&& (n - 1) = 0) ↔ IsPow2 n)) := by
  refine ⟨?_, land_pred_eq_zero_iff⟩
  rw [set_image_ok_iff]
  constructor
  · rintro ⟨hw0, hh0, hwM, hhM, hwb, hhb, -⟩
    exact ⟨hw0, (land_pred_eq_zero_iff w hw0).mp hwb, hwM,
      hh0, (land_pred_eq_zero_iff h hh0).mp hhb, hhM⟩
  · rintro ⟨hw0, hwp, hwM, hh0, hhp, hhM⟩
    exact ⟨hw0, hh0, hwM, hhM, (land_pred_eq_zero_iff w hw0).mpr hwp,
      (land_pred_eq_zero_iff h hh0).mpr hhp, rfl⟩

/-- Witness for C4: 2×2 is accepted, and the bit test holds of 4. -/
theorem C4_set_image_accepts_iff_pow2_witness :
    (Texture.set_image ⟨1, 0, 0⟩ none 2 2 ColorFormat.RGB GlState.init).1 = Except.ok () ∧
    ((4 : Nat) &&& (4 - 1) = 0 ↔ IsPow2 4) :=
  ⟨(C4_set_image_accepts_iff_pow2 ⟨1, 0, 0⟩ 2 2 ColorFormat.RGB GlState.init).1.mpr
      ⟨by decide, ⟨1, rfl⟩, by decide, by decide, ⟨1, rfl⟩, by decide⟩,
   (C4_set_image_accepts_iff_pow2 ⟨1, 0, 0⟩ 2 2 ColorFormat.RGB GlState.init).2 4 (by decide)⟩

/-- C5: with `Some(buf)` shorter than `w * h * bytes_per_pixel(fmt)` the
call fails an assertion; with `None` no length requirement applies: valid
dimensions alone make the call succeed. -/
theorem C5_set_image_data_requirement (t : Texture) (buf : List Nat) (w h : Nat)
    (c : ColorFormat) (s : GlState) :
    (buf.length < w * h * c.bytes_per_pixel →
      isContractError (Texture.set_image t (some buf) w h c s).1 = true) ∧
    ((0 < w ∧ IsPow2 w ∧ w < glow.MAX_TEXTURE_SIZE ∧
      0 < h ∧ IsPow2 h ∧ h < glow.MAX_TEXTURE_SIZE) →
      (Texture.set_image t none w h c s).1 = Except.ok ()) := by
  constructor
  · intro hshort
    rw [isContractError_iff, set_image_ok_iff]
    rintro ⟨-, -, -, -, -, -, hdata⟩
    simp [imageDataTooSmall] at hdata
    omega
  · rintro ⟨hw0, hwp, hwM, hh0, hhp, hhM⟩
    rw [set_image_ok_iff]
    exact ⟨hw0, hh0, hwM, hhM, (land_pred_eq_zero_iff w hw0).mpr hwp,
      (land_pred_eq_zero_iff h hh0).mpr hhp, rfl⟩

/-- Witness for C5: 3 bytes are too few for a 2×2 RGB image and the call
fails; the same dimensions with `None` succeed. -/
theorem C5_set_image_data_requirement_witness :
    ([0, 0, 0] : List Nat).length < 2 * 2 * ColorFormat.RGB.bytes_per_pixel ∧
    isContractError
      (Texture.set_image ⟨1, 0, 0⟩ (some [0, 0, 0]) 2 2 ColorFormat.RGB GlState.init).1 = true ∧
    (Texture.set_image ⟨1, 0, 0⟩ none 2 2 ColorFormat.RGB GlState.init).1 = Except.ok () :=
  ⟨by decide,
   (C5_set_image_data_requirement ⟨1, 0, 0⟩ [0, 0, 0] 2 2 ColorFormat.RGB GlState.init).1
     (by decide),
   (C5_set_image_data_requirement ⟨1, 0, 0⟩ [0, 0, 0] 2 2 ColorFormat.RGB GlState.init).2
     ⟨by decide, ⟨1, rfl⟩, by decide, by decide, ⟨1, rfl⟩, by decide⟩⟩

/-- C2 fails on the code: after a successful 4×4 RGB `set_image`, the
subimage call at `x = 2, y = 0` with a 1×1 rectangle and 3 bytes of data
satisfies every condition of the claim (`x + width ≤ 4`, `y + height ≤ 4`,
data covers `1 * 1 * 3` bytes) yet is rejected, because the source
computes the required length as `(width - x) * (height - y) * 3` and the
`u32` subtraction `1 - 2` wraps around (debug builds panic on it). -/
theorem C2_fitting_subimage_rejected :
    2 + 1 ≤ 4 ∧ 0 + 1 ≤ 4 ∧
    1 * 1 * ColorFormat.RGB.bytes_per_pixel ≤ ([0, 0, 0] : List Nat).length ∧
    (Texture.set_image ⟨1, 0, 0⟩ none 4 4 ColorFormat.RGB GlState.init).1 = Except.ok () ∧
    isContractError
      (Texture.set_subimage
        (Texture.set_image ⟨1, 0, 0⟩ none 4 4 ColorFormat.RGB GlState.init).2.1
        [0, 0, 0] 2 0 1 1 ColorFormat.RGB
        (Texture.set_image ⟨1, 0, 0⟩ none 4 4 ColorFormat.RGB GlState.init).2.2).1 = true :=
  ⟨by decide, by decide, by decide, rfl, by rfl⟩

/-- C6 fails on the code: after a successful 2×2 RGB `set_image`, the
subimage call at `x = 1, y = 1` with a 1×1 rectangle and ZERO bytes of
data is accepted, although the rectangle needs 3 bytes: the source only
requires `(width - x) * (height - y) * 3 = 0` bytes. -/
theorem C6_short_subimage_data_accepted :
    ([] : List Nat).length < 1 * 1 * ColorFormat.RGB.bytes_per_pixel ∧
    (Texture.set_image ⟨1, 0, 0⟩ none 2 2 ColorFormat.RGB GlState.init).1 = Except.ok () ∧
    (Texture.set_subimage
      (Texture.set_image ⟨1, 0, 0⟩ none 2 2 ColorFormat.RGB GlState.init).2.1
      [] 1 1 1 1 ColorFormat.RGB
      (Texture.set_image ⟨1, 0, 0⟩ none 2 2 ColorFormat.RGB GlState.init).2.2).1 =
      Except.ok () :=
  ⟨by decide, rfl, rfl⟩

/-- C7: the spec invariant holds of a new texture, is preserved by
`set_image` on success as on failure, and `set_subimage` returns the
texture fields untouched (its receiver is `&self` in the source, as are
the receivers of `set_active` and the filter/wrap setters, which therefore
cannot change the recorded dimensions at all). -/
theorem C7_texture_invariant (s s1 s2 : GlState) (t : Texture) (d : Option (List Nat))
    (w h : Nat) (c : ColorFormat) (buf : List Nat) (x y sw sh : Nat) (c2 : ColorFormat) :
    TexInv (Texture.new s).1 ∧
    ((Texture.set_image t d w h c s1).1 = Except.ok () →
      TexInv (Texture.set_image t d w h c s1).2.1) ∧
    (isContractError (Texture.set_image t d w h c s1).1 = true →
      (Texture.set_image t d w h c s1).2.1 = t) ∧
    (Texture.set_subimage t buf x y sw sh c2 s2).2.1 = t := by
  refine ⟨Or.inl ⟨rfl, rfl⟩, ?_, ?_, set_subimage_texture t buf x y sw sh c2 s2⟩
  · intro hok
    have hcond := (set_image_ok_iff t d w h c s1).mp hok
    rw [set_image_ok_texture t d w h c s1 hok]
    obtain ⟨hw0, hh0, hwM, hhM, hwb, hhb, -⟩ := hcond
    exact Or.inr ⟨hw0, hh0, (land_pred_eq_zero_iff w hw0).mp hwb,
      (land_pred_eq_zero_iff h hh0).mp hhb, hwM, hhM⟩
  · intro herr
    exact (set_image_err_unchanged t d w h c s1 herr).1

/-- Witness for C7: the invariant after a fresh creation and after a
successful 2×2 upload, and field preservation by a valid subimage call. -/
theorem C7_texture_invariant_witness :
    TexInv (Texture.new GlState.init).1 ∧
    (Texture.set_image ⟨1, 0, 0⟩ none 2 2 ColorFormat.RGB GlState.init).1 = Except.ok () ∧
    TexInv (Texture.set_image ⟨1, 0, 0⟩ none 2 2 ColorFormat.RGB GlState.init).2.1 ∧
    (Texture.set_subimage ⟨1, 2, 2⟩ [0, 0, 0] 0 0 1 1 ColorFormat.RGB GlState.init).2.1 =
      ⟨1, 2, 2⟩ :=
  ⟨(C7_texture_invariant GlState.init GlState.init GlState.init ⟨1, 0, 0⟩ none 2 2
      ColorFormat.RGB [0, 0, 0] 0 0 1 1 ColorFormat.RGB).1,
   rfl,
   (C7_texture_invariant GlState.init GlState.init GlState.init ⟨1, 0, 0⟩ none 2 2
      ColorFormat.RGB [0, 0, 0] 0 0 1 1 ColorFormat.RGB).2.1 rfl,
   (C7_texture_invariant GlState.init GlState.init GlState.init ⟨1, 2, 2⟩ none 2 2
      ColorFormat.RGB [0, 0, 0] 0 0 1 1 ColorFormat.RGB).2.2.2⟩

/-- C8: `Texture::new` records width 0 and height 0, and its constructor
applies linear minification as the default filter. -/
theorem C8_new_empty_linear_min (s : GlState) :
    (Texture.new s).1.width = 0 ∧ (Texture.new s).1.height = 0 ∧
    lookupA (Texture.new s).2.texParams ((Texture.new s).1.id, glow.TEXTURE_MIN_FILTER) =
      some TextureFilter.Linear.to_gl := by
  refine ⟨rfl, rfl, ?_⟩
  unfold Texture.new Texture.set_minification GlState.create_texture
  dsimp only
  rw [set_texture_param_eq]
  exact lookupA_updA_self _ _ _

/-- C9: each filter/wrap setter is idempotent on the full GL state, and
the written parameter value is in place as soon as the call returns. -/
theorem C9_setters_idempotent (t : Texture) (s : GlState) (f g : TextureFilter)
    (u v : TextureWrap) :
    (t.set_minification f (t.set_minification f s) = t.set_minification f s ∧
     lookupA (t.set_minification f s).texParams (t.id, glow.TEXTURE_MIN_FILTER) =
       some f.to_gl) ∧
    (t.set_magnification g (t.set_magnification g s) = t.set_magnification g s ∧
     lookupA (t.set_magnification g s).texParams (t.id, glow.TEXTURE_MAG_FILTER) =
       some g.to_gl) ∧
    (t.set_wrap_h u (t.set_wrap_h u s) = t.set_wrap_h u s ∧
     lookupA (t.set_wrap_h u s).texParams (t.id, glow.TEXTURE_WRAP_S) = some u.to_gl) ∧
    (t.set_wrap_v v (t.set_wrap_v v s) = t.set_wrap_v v s ∧
     lookupA (t.set_wrap_v v s).texParams (t.id, glow.TEXTURE_WRAP_T) = some v.to_gl) :=
  ⟨set_texture_param_idem t glow.TEXTURE_MIN_FILTER f.to_gl s,
   set_texture_param_idem t glow.TEXTURE_MAG_FILTER g.to_gl s,
   set_texture_param_idem t glow.TEXTURE_WRAP_S u.to_gl s,
   set_texture_param_idem t glow.TEXTURE_WRAP_T v.to_gl s⟩

/-- C10: successful `set_image` and `set_subimage` leave the active unit
as they found it with its TEXTURE_2D binding cleared, and `set_active`
leaves the active unit back at TEXTURE0 with the texture bound on unit
TEXTURE0 + bind_point. -/
theorem C10_binding_cleanup (t : Texture) (d : Option (List Nat)) (w h : Nat)
    (c : ColorFormat) (s : GlState) (buf : List Nat) (x y sw sh : Nat)
    (c2 : ColorFormat) (s2 : GlState) (bp : Nat) (s3 : GlState) :
    ((Texture.set_image t d w h c s).1 = Except.ok () →
      (Texture.set_image t d w h c s).2.2.bound2D s.activeUnit = none ∧
      (Texture.set_image t d w h c s).2.2.activeUnit = s.activeUnit) ∧
    ((Texture.set_subimage t buf x y sw sh c2 s2).1 = Except.ok () →
      (Texture.set_subimage t buf x y sw sh c2 s2).2.2.bound2D s2.activeUnit = none ∧
      (Texture.set_subimage t buf x y sw sh c2 s2).2.2.activeUnit = s2.activeUnit) ∧
    ((Texture.set_active t bp s3).activeUnit = glow.TEXTURE0 ∧
     (Texture.set_active t bp s3).bound2D (add32 glow.TEXTURE0 bp) = some t.id) := by
  refine ⟨?_, ?_, ?_, ?_⟩
  · intro hok
    rw [set_image_ok_state t d w h c s hok]
    exact ⟨(bound2D_bind_bind s (some t.id) none).1, (bound2D_bind_bind s (some t.id) none).2⟩
  · intro hok
    rw [set_subimage_ok_state t buf x y sw sh c2 s2 hok]
    exact ⟨(bound2D_bind_bind s2 (some t.id) none).1, (bound2D_bind_bind s2 (some t.id) none).2⟩
  · rfl
  · unfold Texture.set_active GlState.active_texture GlState.bind_texture GlState.bound2D
    dsimp only
    rw [lookupA_updA_self]
    rfl

/-- Witness for C10: concrete runs of all three operations. -/
theorem C10_binding_cleanup_witness :
    ((Texture.set_image ⟨1, 0, 0⟩ none 2 2 ColorFormat.RGB GlState.init).2.2.bound2D
        GlState.init.activeUnit = none ∧
     (Texture.set_image ⟨1, 0, 0⟩ none 2 2 ColorFormat.RGB GlState.init).2.2.activeUnit =
        GlState.init.activeUnit) ∧
    ((Texture.set_subimage ⟨1, 2, 2⟩ [0, 0, 0] 0 0 1 1 ColorFormat.RGB GlState.init).2.2.bound2D
        GlState.init.activeUnit = none ∧
     (Texture.set_subimage ⟨1, 2, 2⟩ [0, 0, 0] 0 0 1 1 ColorFormat.RGB
        GlState.init).2.2.activeUnit = GlState.init.activeUnit) ∧
    ((Texture.set_active ⟨1, 2, 2⟩ 3 GlState.init).activeUnit = glow.TEXTURE0 ∧
     (Texture.set_active ⟨1, 2, 2⟩ 3 GlState.init).bound2D (add32 glow.TEXTURE0 3) =
        some 1) :=
  ⟨(C10_binding_cleanup ⟨1, 0, 0⟩ none 2 2 ColorFormat.RGB GlState.init [0, 0, 0] 0 0 1 1
      ColorFormat.RGB GlState.init 3 GlState.init).1 rfl,
   (C10_binding_cleanup ⟨1, 2, 2⟩ none 2 2 ColorFormat.RGB GlState.init [0, 0, 0] 0 0 1 1
      ColorFormat.RGB GlState.init 3 GlState.init).2.1 rfl,
   (C10_binding_cleanup ⟨1, 2, 2⟩ none 2 2 ColorFormat.RGB GlState.init [0, 0, 0] 0 0 1 1
      ColorFormat.RGB GlState.init 3 GlState.init).2.2⟩

end Golem
